import Mathlib

/-!
Shallow embedding of the "Sahaay" chat front-end send pipeline
(src/src/components/chat/ChatInterface.tsx).

The file models, as pure Lean functions over explicit state and an
environment of collaborator outcomes:

* `getFallbackSuggestion` — the keyword-matched fallback suggestion selector;
* `sendMessage` — the text send pipeline of the `ChatInterface` component
  (guard, user echo via the store, consent-gated enrichment, remote
  generation, AI / fallback reply append);
* `processImageUpload` — the image attachment path (echo, size/type
  validation, canned bill response or error message);
* `handleSendMessage` — the send pipeline of the `MessagingApp` variant.

External collaborators (the key-value store, the AI service, wall-clock
time) are parameters of an environment record; user-visible effects
(store appends, toasts, collaborator calls, console logs, chat-list
updates) are recorded in an event trace so that claims about which calls
happen can be stated and proved.
-/

/-- Substring test on character lists: `charsContain pat l` is true iff
`pat` occurs contiguously inside `l`. -/
def charsContain (pat : List Char) : List Char → Bool
  | [] => pat.isEmpty
  | c :: cs => pat.isPrefixOf (c :: cs) || charsContain pat cs

/-- Embedding of JavaScript `s.includes(pat)` (substring containment). -/
def strContains (s pat : String) : Bool :=
  charsContain pat.data s.data

/-- Embedding of JavaScript `s.toLowerCase()`: lowercase every character. -/
def strLower (s : String) : String :=
  ⟨s.data.map Char.toLower⟩

/-- Embedding of JavaScript `s.trim()`: drop whitespace from both ends. -/
def strTrim (s : String) : String :=
  ⟨((s.data.dropWhile Char.isWhitespace).reverse.dropWhile Char.isWhitespace).reverse⟩

/-- Embedding of JavaScript `s.startsWith(pat)`. -/
def strStartsWith (s pat : String) : Bool :=
  pat.data.isPrefixOf s.data

/-- Fixed suggestion text of the route/traffic/direction category. -/
def routeSuggestion : String :=
  "\n\n🗺️ **For route planning:** Try \"I need to go from [location] to [destination]\" or check Google Maps/Ola Maps for live navigation."

/-- Fixed suggestion text of the bill/payment/electricity/water category. -/
def billSuggestion : String :=
  "\n\n💰 **For bill processing:** Upload a clear photo of your bill, or try describing the bill details (amount, due date, provider)."

/-- Fixed suggestion text of the summary/group/@sahaay category. -/
def groupSuggestion : String :=
  "\n\n👥 **For group features:** Try \"@Sahaay summary of last 3 days\" or \"summarize recent messages\" for conversation insights."

/-- Fixed suggestion text of the weather/temperature category. -/
def weatherSuggestion : String :=
  "\n\n🌤️ **For weather:** Check weather apps or try \"What\x27s the weather like in [city]?\""

/-- Fixed suggestion text of the translate/meaning category. -/
def translateSuggestion : String :=
  "\n\n🌍 **For translation:** Try Google Translate or specify the languages: \"Translate [text] from [language] to [language]\""

/-- Fixed generic default suggestion text. -/
def defaultSuggestion : String :=
  "\n\n💡 **Try asking about:** Routes, bills, weather, translations, or group summaries. Be specific for better results!"

/-- Embedding of `getFallbackSuggestion` (ChatInterface.tsx lines 15-39):
lowercase the message, then return the suggestion of the first matching
keyword category, in source order. -/
def getFallbackSuggestion (message : String) : String :=
  let lowerMessage := strLower message
  if strContains lowerMessage "route" || strContains lowerMessage "traffic" ||
      strContains lowerMessage "direction" then
    routeSuggestion
  else if strContains lowerMessage "bill" || strContains lowerMessage "payment" ||
      strContains lowerMessage "electricity" || strContains lowerMessage "water" then
    billSuggestion
  else if strContains lowerMessage "summary" || strContains lowerMessage "group" ||
      strContains lowerMessage "@sahaay" then
    groupSuggestion
  else if strContains lowerMessage "weather" || strContains lowerMessage "temperature" then
    weatherSuggestion
  else if strContains lowerMessage "translate" || strContains lowerMessage "meaning" then
    translateSuggestion
  else
    defaultSuggestion

example : getFallbackSuggestion "ROUTE and weather" = routeSuggestion := by decide

example : getFallbackSuggestion "hello" = defaultSuggestion := by decide

example : getFallbackSuggestion "the Weather today" = weatherSuggestion := by decide

/-- Message sender, embedding the TS union `'user' | 'ai'`. -/
inductive Sender
  | user
  | ai
deriving DecidableEq, Repr

/-- Message kind, embedding the TS union `'text' | 'image' | 'location' | 'bill'`. -/
inductive MsgType
  | text
  | image
  | location
  | bill
deriving DecidableEq, Repr

/-- Embedding of the optional `metadata` bag of a `Message`. -/
structure MsgMetadata where
  confidence : Option ℚ
  needsPermission : Option String
  actionItems : Option (List String)
  disclaimer : Option String
deriving DecidableEq, Repr

/-- Embedding of the `Message` interface (ChatInterface.tsx lines 41-53). -/
structure Message where
  id : String
  content : String
  sender : Sender
  timestamp : String
  type : MsgType
  metadata : Option MsgMetadata
deriving DecidableEq, Repr

/-- Result of `aiService.detectMood`. -/
structure MoodAnalysis where
  mood : String
  confidence : ℚ
  suggestions : List String
deriving DecidableEq, Repr

/-- Result of `aiService.getHyperlocalContext`. -/
structure LocationContext where
  area : String
  suggestions : List String
deriving DecidableEq, Repr

/-- The two consent flags read by `sendMessage` from the `userConsents` prop. -/
structure Consents where
  moodDetection : Bool
  locationServices : Bool
deriving DecidableEq, Repr

/-- The context record passed to `aiService.generateResponse`
(ChatInterface.tsx lines 160-169). -/
structure GenContext where
  mood : MoodAnalysis
  location : LocationContext
  messageHistory : List Message
  isGroupMention : Bool
  specificRequest : String
deriving DecidableEq, Repr

/-- Observable effects of one pipeline invocation: store appends, toasts,
collaborator calls, chat-list updates and console logs. -/
inductive Event
  | storeAppend (m : Message)
  | toastError (s : String)
  | moodCall (input : String)
  | localityCall (area input : String)
  | genCall (input : String) (ctx : GenContext)
  | chatUpdate (chatId preview : String)
  | consoleError (s : String)
deriving DecidableEq, Repr

/-- The component state read and written by the pipelines: the pending
input, the two busy flags, and the per-chat message log held behind
`useKV`. -/
structure ChatState where
  message : String
  isSending : Bool
  isTyping : Bool
  messages : List Message
deriving DecidableEq, Repr

/-- Environment of collaborator outcomes for one `sendMessage` invocation:
the clock, whether each store append succeeds, the enrichment and
generation collaborators, and the message produced by `handleKVError`
for a failed operation. -/
structure SendEnv where
  now : Nat
  nowISO : String
  initOk : Bool
  appendUserOk : Bool
  appendAiOk : Bool
  appendFallbackOk : Bool
  detectMood : String → MoodAnalysis
  getHyperlocalContext : String → String → LocationContext
  generateResponse : String → GenContext → Except String String
  kvErrorMessage : String → String

/-- Fixed disclaimer attached to a successful AI reply. -/
def aiDisclaimer : String :=
  "AI-generated response. Verify important information independently."

/-- Fixed disclaimer attached to a fallback reply. -/
def fallbackDisclaimer : String :=
  "This is a fallback response due to AI service unavailability. Please configure your AI provider in Settings for full functionality."

/-- Fixed configuration-troubleshooting explanation that opens a fallback
reply (ChatInterface.tsx line 201). -/
def fallbackExplanation : String :=
  "I\x27m currently having trouble connecting to the AI service. This could be because:\n\n🔧 **Configuration needed:** Go to Settings → AI Configuration to set up your AI provider\n\n🌐 **Connection issues:** Check your internet connection\n\n⚙️ **Service temporarily unavailable:** Please try again in a moment\n\n**Based on your message, here are some immediate suggestions:**"

/-- The catch block of `sendMessage` (ChatInterface.tsx lines 195-225):
synthesize the fallback message, try to append it (toasting the storage
error if that append fails too), toast the failure notice, and clear the
busy flags. -/
def sendFallback (env : SendEnv) (st : ChatState) (currentMessage : String)
    (pre : List Event) : ChatState × List Event :=
  let fallbackMessage : Message := {
    id := "msg-" ++ toString (env.now + 1)
    content := fallbackExplanation ++ getFallbackSuggestion currentMessage
    sender := .ai
    timestamp := env.nowISO
    type := .text
    metadata := some {
      confidence := some (0.1 : ℚ)
      needsPermission := none
      actionItems := none
      disclaimer := some fallbackDisclaimer } }
  if env.appendFallbackOk then
    ({ st with messages := st.messages ++ [fallbackMessage],
               isTyping := false, isSending := false },
     pre ++ [Event.storeAppend fallbackMessage,
             Event.toastError "Failed to get AI response. Using fallback response."])
  else
    ({ st with isTyping := false, isSending := false },
     pre ++ [Event.toastError (env.kvErrorMessage "add fallback message"),
             Event.toastError "Failed to get AI response. Using fallback response."])

/-- Resolution step of `sendMessage` on the generation call's outcome
(ChatInterface.tsx lines 171-225): on success wrap the returned text in
an AI message carrying the mood confidence and the fixed disclaimer,
append it and notify the chat list (toasting the storage error if that
append fails); on failure run the fallback path. -/
def sendResolve (env : SendEnv) (chatId : String) (st2 : ChatState)
    (currentMessage : String) (moodConfidence : ℚ) (pre : List Event) :
    Except String String → ChatState × List Event
  | .ok aiResponseContent =>
    let aiMessage : Message := {
      id := "msg-" ++ toString (env.now + 1)
      content := aiResponseContent
      sender := .ai
      timestamp := env.nowISO
      type := .text
      metadata := some {
        confidence := some moodConfidence
        needsPermission := none
        actionItems := none
        disclaimer := some aiDisclaimer } }
    if env.appendAiOk then
      ({ st2 with messages := st2.messages ++ [aiMessage],
                  isTyping := false, isSending := false },
       pre ++ [Event.storeAppend aiMessage,
               Event.chatUpdate chatId (aiMessage.content.take 100)])
    else
      ({ st2 with isTyping := false, isSending := false },
       pre ++ [Event.toastError (env.kvErrorMessage "add AI message")])
  | .error _ =>
    sendFallback env st2 currentMessage pre

/-- Embedding of `sendMessage` (ChatInterface.tsx lines 107-226) as a pure
function from the environment, the consent flags, the chat id and the
component state to the next state and the event trace. -/
def sendMessage (env : SendEnv) (userConsents : Consents) (chatId : String)
    (st : ChatState) : ChatState × List Event :=
  if (strTrim st.message).isEmpty || st.isSending then (st, [])
  else
    let userMessage : Message := {
      id := "msg-" ++ toString env.now
      content := (strTrim st.message)
      sender := .user
      timestamp := env.nowISO
      type := .text
      metadata := none }
    if !env.appendUserOk then
      ({ st with isSending := false },
       [Event.toastError (env.kvErrorMessage "add user message")])
    else
      let currentMessage := (strTrim st.message)
      let st2 : ChatState := { st with
        message := ""
        isSending := true
        isTyping := true
        messages := st.messages ++ [userMessage] }
      if !env.initOk then
        sendFallback env st2 currentMessage [Event.storeAppend userMessage]
      else
        let moodAnalysis := if userConsents.moodDetection then env.detectMood currentMessage
          else { mood := "neutral", confidence := 0, suggestions := [] }
        let locationContext := if userConsents.locationServices then
            env.getHyperlocalContext "Bangalore" currentMessage
          else { area := "", suggestions := [] }
        let enrichEvents :=
          (if userConsents.moodDetection then [Event.moodCall currentMessage] else []) ++
          (if userConsents.locationServices then [Event.localityCall "Bangalore" currentMessage] else [])
        let ctx : GenContext := {
          mood := moodAnalysis
          location := locationContext
          messageHistory := st.messages
          isGroupMention := strContains (strLower currentMessage) "@sahaay"
          specificRequest := currentMessage }
        let pre := [Event.storeAppend userMessage] ++ enrichEvents ++
          [Event.genCall currentMessage ctx]
        sendResolve env chatId st2 currentMessage moodAnalysis.confidence pre
          (env.generateResponse currentMessage ctx)

/-- An attachment selected in the file picker: name, byte size and MIME type. -/
structure FileInfo where
  name : String
  size : Nat
  type : String
deriving DecidableEq, Repr

/-- Environment of collaborator outcomes for one `processImageUpload`
invocation. -/
structure ImgEnv where
  now : Nat
  nowISO : String
  appendImageOk : Bool
  appendBillOk : Bool
  appendErrorOk : Bool
  kvErrorMessage : String → String

/-- Fixed content of the canned bill-recognition reply
(ChatInterface.tsx line 289). -/
def billResponseContent : String :=
  "I can see this is a BESCOM electricity bill. Here\x27s what I found:\n\n💡 **Bill Amount**: ₹734\n📅 **Due Date**: 22 Sep 2024\n🏠 **Service Connection**: 1234567890\n\nWould you like me to create a UPI payment link or set a reminder?"

/-- The canned bill-recognition reply appended after the simulated delay. -/
def billResponse (env : ImgEnv) : Message := {
  id := "msg-" ++ toString (env.now + 1)
  content := billResponseContent
  sender := .ai
  timestamp := env.nowISO
  type := .text
  metadata := some {
    confidence := some (0.95 : ℚ)
    needsPermission := none
    actionItems := some ["Create UPI Payment Link", "Set Reminder", "View Bill Details"]
    disclaimer := some "Bill processing is automated. Please verify details before payment." } }

/-- The catch block of `processImageUpload` (ChatInterface.tsx lines
312-339): clear the typing flag, toast the validation error, and append a
synthesized error message — logging, but not toasting, a failure of that
secondary append. -/
def imageUploadError (env : ImgEnv) (st : ChatState) (errorMessage : String)
    (pre : List Event) : ChatState × List Event :=
  let errorResponse : Message := {
    id := "msg-" ++ toString (env.now + 1)
    content := "❌ Error processing image: " ++ errorMessage
    sender := .ai
    timestamp := env.nowISO
    type := .text
    metadata := some {
      confidence := some (0 : ℚ)
      needsPermission := none
      actionItems := none
      disclaimer := some "Error occurred during file processing." } }
  if env.appendErrorOk then
    ({ st with isTyping := false, messages := st.messages ++ [errorResponse] },
     pre ++ [Event.toastError errorMessage, Event.storeAppend errorResponse])
  else
    ({ st with isTyping := false },
     pre ++ [Event.toastError errorMessage,
             Event.consoleError (env.kvErrorMessage "add error message")])

/-- Embedding of `processImageUpload` (ChatInterface.tsx lines 252-340):
append the user image message, validate size (10 MiB cap) and MIME type,
then either run the error path or append the canned bill response after
the simulated delay. -/
def processImageUpload (env : ImgEnv) (st : ChatState) (file : FileInfo) :
    ChatState × List Event :=
  let imageMessage : Message := {
    id := "msg-" ++ toString env.now
    content := "📷 Image uploaded: " ++ file.name
    sender := .user
    timestamp := env.nowISO
    type := .image
    metadata := none }
  if !env.appendImageOk then
    (st, [Event.toastError (env.kvErrorMessage "add image message")])
  else
    let st1 : ChatState := { st with
      isTyping := true
      messages := st.messages ++ [imageMessage] }
    if file.size > 10 * 1024 * 1024 then
      imageUploadError env st1
        "File size too large. Please select an image under 10MB."
        [Event.storeAppend imageMessage]
    else if !(strStartsWith file.type "image/") then
      imageUploadError env st1
        "Invalid file type. Please select an image file."
        [Event.storeAppend imageMessage]
    else
      if env.appendBillOk then
        ({ st1 with isTyping := false,
                    messages := st1.messages ++ [billResponse env] },
         [Event.storeAppend imageMessage, Event.storeAppend (billResponse env)])
      else
        ({ st1 with isTyping := false },
         [Event.storeAppend imageMessage,
          Event.toastError (env.kvErrorMessage "add bill response")])

/-- A message of the `MessagingApp` variant, as passed to `addMessage`. -/
structure AMessage where
  content : String
  sender : Sender
  chatId : String
  metadata : Option MsgMetadata
deriving DecidableEq, Repr

/-- The `aiConfig` part of the settings of the `MessagingApp` variant;
`apiKey = none` models an absent key, `some ""` an empty one (both are
falsy in the source's truthiness test). -/
structure AIConfig where
  enabled : Bool
  apiKey : Option String
deriving DecidableEq, Repr

/-- Settings read by the `MessagingApp` send handler. -/
structure AppSettings where
  aiConfig : AIConfig
  moodDetection : Bool
deriving DecidableEq, Repr

/-- JavaScript truthiness of the optional `apiKey` string. -/
def truthyKey : Option String → Bool
  | none => false
  | some s => !s.isEmpty

/-- Options record passed to the variant's `generateResponse`
(MessagingApp lines 614-617). -/
structure GenOpts where
  mood : Option String
  isGroup : Bool
deriving DecidableEq, Repr

/-- One history entry sent to the variant's `generateResponse`:
a role ("user" / "assistant") and the message content. -/
structure HistEntry where
  role : String
  content : String
deriving DecidableEq, Repr

/-- Observable effects of one `handleSendMessage` invocation of the
`MessagingApp` variant. -/
inductive AEvent
  | addMessage (m : AMessage)
  | genCall (input : String) (history : List HistEntry) (opts : GenOpts)
  | toastError (s : String)
deriving DecidableEq, Repr

/-- State read by the variant's `handleSendMessage`: the pending input,
the current chat id, its type tag, and the current chat's message list. -/
structure AppState where
  messageInput : String
  currentChatId : Option String
  currentChatType : Option String
  currentMessages : List AMessage
deriving DecidableEq, Repr

/-- Environment for one `handleSendMessage` invocation of the variant:
the AI service, which either returns content plus metadata or throws. -/
structure AppEnv where
  generateResponse : String → List HistEntry → GenOpts →
    Except String (String × Option MsgMetadata)

/-- Embedding of the `MessagingApp` variant's `handleSendMessage`
(ChatInterface.tsx lines 587-633): guard on empty input or no current
chat, append the user message, and call the AI service only when
`settings.aiConfig.enabled` and `settings.aiConfig.apiKey` are truthy. -/
def handleSendMessage (env : AppEnv) (settings : AppSettings) (st : AppState) :
    AppState × List AEvent :=
  if (strTrim st.messageInput).isEmpty then (st, [])
  else
    match st.currentChatId with
    | none => (st, [])
    | some cid =>
      let userMessage := (strTrim st.messageInput)
      let userMsg : AMessage := {
        content := userMessage
        sender := .user
        chatId := cid
        metadata := none }
      let st1 : AppState := { st with
        messageInput := ""
        currentMessages := st.currentMessages ++ [userMsg] }
      if settings.aiConfig.enabled && truthyKey settings.aiConfig.apiKey then
        let conversationHistory :=
          (st.currentMessages.drop (st.currentMessages.length - 10)).map
            fun m => HistEntry.mk
              (if m.sender = Sender.user then "user" else "assistant") m.content
        let opts : GenOpts := {
          mood := if settings.moodDetection then some "auto" else none
          isGroup := st.currentChatType = some "group" }
        match env.generateResponse userMessage conversationHistory opts with
        | .ok res =>
          let aiMsg : AMessage := {
            content := res.1
            sender := .ai
            chatId := cid
            metadata := res.2 }
          ({ st1 with currentMessages := st1.currentMessages ++ [aiMsg] },
           [AEvent.addMessage userMsg,
            AEvent.genCall userMessage conversationHistory opts,
            AEvent.addMessage aiMsg])
        | .error _ =>
          (st1,
           [AEvent.addMessage userMsg,
            AEvent.genCall userMessage conversationHistory opts,
            AEvent.toastError "Failed to generate AI response"])
      else
        (st1, [AEvent.addMessage userMsg])

/-- Claim C2: the fallback suggestion selector is a total function from
strings to exactly the six fixed suggestion strings, chosen by the first
matching keyword category of the lowercased input in the source's
priority order — route/traffic/direction, then
bill/payment/electricity/water, then summary/group/@sahaay, then
weather/temperature, then translate/meaning, else the generic default —
so in particular any input matching a route keyword yields the route
suggestion, whatever lower-priority keywords it also contains. -/
theorem getFallbackSuggestion_total_route_priority (s : String) :
    (getFallbackSuggestion s = routeSuggestion ∨
     getFallbackSuggestion s = billSuggestion ∨
     getFallbackSuggestion s = groupSuggestion ∨
     getFallbackSuggestion s = weatherSuggestion ∨
     getFallbackSuggestion s = translateSuggestion ∨
     getFallbackSuggestion s = defaultSuggestion) ∧
    ((strContains (strLower s) "route" || strContains (strLower s) "traffic" ||
        strContains (strLower s) "direction") = true →
      getFallbackSuggestion s = routeSuggestion) ∧
    ((strContains (strLower s) "route" || strContains (strLower s) "traffic" ||
        strContains (strLower s) "direction") = false →
     (strContains (strLower s) "bill" || strContains (strLower s) "payment" ||
        strContains (strLower s) "electricity" || strContains (strLower s) "water") = true →
      getFallbackSuggestion s = billSuggestion) ∧
    ((strContains (strLower s) "route" || strContains (strLower s) "traffic" ||
        strContains (strLower s) "direction") = false →
     (strContains (strLower s) "bill" || strContains (strLower s) "payment" ||
        strContains (strLower s) "electricity" || strContains (strLower s) "water") = false →
     (strContains (strLower s) "summary" || strContains (strLower s) "group" ||
        strContains (strLower s) "@sahaay") = true →
      getFallbackSuggestion s = groupSuggestion) ∧
    ((strContains (strLower s) "route" || strContains (strLower s) "traffic" ||
        strContains (strLower s) "direction") = false →
     (strContains (strLower s) "bill" || strContains (strLower s) "payment" ||
        strContains (strLower s) "electricity" || strContains (strLower s) "water") = false →
     (strContains (strLower s) "summary" || strContains (strLower s) "group" ||
        strContains (strLower s) "@sahaay") = false →
     (strContains (strLower s) "weather" || strContains (strLower s) "temperature") = true →
      getFallbackSuggestion s = weatherSuggestion) ∧
    ((strContains (strLower s) "route" || strContains (strLower s) "traffic" ||
        strContains (strLower s) "direction") = false →
     (strContains (strLower s) "bill" || strContains (strLower s) "payment" ||
        strContains (strLower s) "electricity" || strContains (strLower s) "water") = false →
     (strContains (strLower s) "summary" || strContains (strLower s) "group" ||
        strContains (strLower s) "@sahaay") = false →
     (strContains (strLower s) "weather" || strContains (strLower s) "temperature") = false →
     (strContains (strLower s) "translate" || strContains (strLower s) "meaning") = true →
      getFallbackSuggestion s = translateSuggestion) ∧
    ((strContains (strLower s) "route" || strContains (strLower s) "traffic" ||
        strContains (strLower s) "direction") = false →
     (strContains (strLower s) "bill" || strContains (strLower s) "payment" ||
        strContains (strLower s) "electricity" || strContains (strLower s) "water") = false →
     (strContains (strLower s) "summary" || strContains (strLower s) "group" ||
        strContains (strLower s) "@sahaay") = false →
     (strContains (strLower s) "weather" || strContains (strLower s) "temperature") = false →
     (strContains (strLower s) "translate" || strContains (strLower s) "meaning") = false →
      getFallbackSuggestion s = defaultSuggestion) := by
  refine ⟨?_, ?_, ?_, ?_, ?_, ?_, ?_⟩
  · simp only [getFallbackSuggestion]
    split_ifs <;> tauto
  · intro h1
    simp only [getFallbackSuggestion]
    simp [h1]
  · intro h1 h2
    simp only [getFallbackSuggestion]
    simp [h1, h2]
  · intro h1 h2 h3
    simp only [getFallbackSuggestion]
    simp [h1, h2, h3]
  · intro h1 h2 h3 h4
    simp only [getFallbackSuggestion]
    simp [h1, h2, h3, h4]
  · intro h1 h2 h3 h4 h5
    simp only [getFallbackSuggestion]
    simp [h1, h2, h3, h4, h5]
  · intro h1 h2 h3 h4 h5
    simp only [getFallbackSuggestion]
    simp [h1, h2, h3, h4, h5]

/-- Witness for C2: the totality disjunction and route dominance at
"route to the weather station" (route plus a lower-priority keyword),
the bill category at "pay my electricity bill", the group category at
"@sahaay group summary please", the weather category at
"how hot is the temperature", the translate category at
"translate this sentence", and the default at "hello". -/
theorem getFallbackSuggestion_total_route_priority_witness :
    (getFallbackSuggestion "route to the weather station" = routeSuggestion ∨
     getFallbackSuggestion "route to the weather station" = billSuggestion ∨
     getFallbackSuggestion "route to the weather station" = groupSuggestion ∨
     getFallbackSuggestion "route to the weather station" = weatherSuggestion ∨
     getFallbackSuggestion "route to the weather station" = translateSuggestion ∨
     getFallbackSuggestion "route to the weather station" = defaultSuggestion) ∧
    getFallbackSuggestion "route to the weather station" = routeSuggestion ∧
    getFallbackSuggestion "pay my electricity bill" = billSuggestion ∧
    getFallbackSuggestion "@sahaay group summary please" = groupSuggestion ∧
    getFallbackSuggestion "how hot is the temperature" = weatherSuggestion ∧
    getFallbackSuggestion "translate this sentence" = translateSuggestion ∧
    getFallbackSuggestion "hello" = defaultSuggestion :=
  ⟨(getFallbackSuggestion_total_route_priority "route to the weather station").1,
   (getFallbackSuggestion_total_route_priority "route to the weather station").2.1
     (by decide),
   (getFallbackSuggestion_total_route_priority "pay my electricity bill").2.2.1
     (by decide) (by decide),
   (getFallbackSuggestion_total_route_priority "@sahaay group summary please").2.2.2.1
     (by decide) (by decide) (by decide),
   (getFallbackSuggestion_total_route_priority "how hot is the temperature").2.2.2.2.1
     (by decide) (by decide) (by decide) (by decide),
   (getFallbackSuggestion_total_route_priority "translate this sentence").2.2.2.2.2.1
     (by decide) (by decide) (by decide) (by decide) (by decide),
   (getFallbackSuggestion_total_route_priority "hello").2.2.2.2.2.2
     (by decide) (by decide) (by decide) (by decide) (by decide)⟩

/-- Claim C3: a send invocation whose input trims to the empty string, or
issued while a send is already in flight (`isSending` true), is a no-op:
the state — in particular the chat's message list — is unchanged, and the
empty event trace records that no store append and no generation call
occurred. -/
theorem sendMessage_guard_noop (env : SendEnv) (uc : Consents) (cid : String)
    (st : ChatState)
    (h : (strTrim st.message).isEmpty = true ∨ st.isSending = true) :
    sendMessage env uc cid st = (st, []) ∧
    (sendMessage env uc cid st).1.messages = st.messages ∧
    (sendMessage env uc cid st).2 = [] := by
  have hg : sendMessage env uc cid st = (st, []) := by
    unfold sendMessage
    rcases h with h | h <;> simp [h]
  exact ⟨hg, by rw [hg], by rw [hg]⟩

/-- Demonstration environment used to instantiate hypotheses of the
pipeline theorems at concrete inputs. -/
def demoEnv : SendEnv := {
  now := 100
  nowISO := "2024-09-01T10:00:00.000Z"
  initOk := true
  appendUserOk := true
  appendAiOk := true
  appendFallbackOk := true
  detectMood := fun _ => { mood := "happy", confidence := 0.8, suggestions := [] }
  getHyperlocalContext := fun a _ => { area := a, suggestions := ["local tip"] }
  generateResponse := fun _ _ => .ok "Here is my reply."
  kvErrorMessage := fun op => "Storage error while trying to " ++ op }

/-- Demonstration chat state with one send already in flight. -/
def busyState : ChatState :=
  { message := "hello", isSending := true, isTyping := true, messages := [] }

/-- Witness for C3: a concrete in-flight send is a no-op. -/
theorem sendMessage_guard_noop_witness :
    sendMessage demoEnv ⟨true, true⟩ "chat-1" busyState = (busyState, []) ∧
    (sendMessage demoEnv ⟨true, true⟩ "chat-1" busyState).1.messages = busyState.messages ∧
    (sendMessage demoEnv ⟨true, true⟩ "chat-1" busyState).2 = [] :=
  sendMessage_guard_noop demoEnv ⟨true, true⟩ "chat-1" busyState (Or.inr (by decide))

/-- Claim C4: when the store append of the echoed user message fails, the
send aborts — the whole result is the unchanged message list together
with a single toast of the storage error, so no enrichment or generation
call was made and no further message was appended — and the in-flight
guard `isSending` ends released. -/
theorem sendMessage_userAppendFail_aborts (env : SendEnv) (uc : Consents)
    (cid : String) (st : ChatState)
    (hne : (strTrim st.message).isEmpty = false)
    (hns : st.isSending = false)
    (hfail : env.appendUserOk = false) :
    sendMessage env uc cid st =
      ({ st with isSending := false },
       [Event.toastError (env.kvErrorMessage "add user message")]) ∧
    (sendMessage env uc cid st).1.messages = st.messages ∧
    (sendMessage env uc cid st).1.isSending = false := by
  have hg : sendMessage env uc cid st =
      ({ st with isSending := false },
       [Event.toastError (env.kvErrorMessage "add user message")]) := by
    unfold sendMessage
    simp [hne, hns, hfail]
  exact ⟨hg, by rw [hg], by rw [hg]⟩

/-- Demonstration chat state with a pending non-empty input and no send
in flight. -/
def readyState : ChatState :=
  { message := " what is the weather? ", isSending := false, isTyping := false,
    messages := [] }

/-- Witness for C4 in a concrete environment whose user-message append
fails. -/
theorem sendMessage_userAppendFail_aborts_witness :
    sendMessage { demoEnv with appendUserOk := false } ⟨true, true⟩ "chat-1" readyState =
      ({ readyState with isSending := false },
       [Event.toastError ({ demoEnv with appendUserOk := false }.kvErrorMessage "add user message")]) ∧
    (sendMessage { demoEnv with appendUserOk := false } ⟨true, true⟩ "chat-1" readyState).1.messages =
      readyState.messages ∧
    (sendMessage { demoEnv with appendUserOk := false } ⟨true, true⟩ "chat-1" readyState).1.isSending = false :=
  sendMessage_userAppendFail_aborts { demoEnv with appendUserOk := false }
    ⟨true, true⟩ "chat-1" readyState (by decide) (by decide) rfl

/-- Claim C1: when the remote generation call throws, the send appends
exactly one fallback AI message after the echoed user message: it has
sender ai, type text, confidence 0.1, the fixed non-empty fallback
disclaimer, and its content is the fixed configuration-troubleshooting
explanation followed by the keyword-matched suggestion for the sent
input (assuming the store accepts both appends). -/
theorem sendMessage_genFail_fallback (env : SendEnv) (uc : Consents)
    (cid : String) (st : ChatState) (e : String)
    (hne : (strTrim st.message).isEmpty = false)
    (hns : st.isSending = false)
    (happ : env.appendUserOk = true)
    (hinit : env.initOk = true)
    (hgen : ∀ c, env.generateResponse (strTrim st.message) c = Except.error e)
    (hfb : env.appendFallbackOk = true) :
    (sendMessage env uc cid st).1.messages =
      st.messages ++
        [{ id := "msg-" ++ toString env.now
           content := strTrim st.message
           sender := .user
           timestamp := env.nowISO
           type := .text
           metadata := none },
         { id := "msg-" ++ toString (env.now + 1)
           content := fallbackExplanation ++ getFallbackSuggestion (strTrim st.message)
           sender := .ai
           timestamp := env.nowISO
           type := .text
           metadata := some { confidence := some (0.1 : ℚ)
                              needsPermission := none
                              actionItems := none
                              disclaimer := some fallbackDisclaimer } }] ∧
    fallbackDisclaimer ≠ "" := by
  constructor
  · unfold sendMessage sendResolve sendFallback
    simp [hne, hns, happ, hinit, hgen, hfb]
  · decide

/-- Environment whose remote generation call always throws. -/
def failEnv : SendEnv :=
  { demoEnv with generateResponse := fun _ _ => .error "network error" }

/-- Witness for C1 in a concrete always-throwing environment. -/
theorem sendMessage_genFail_fallback_witness :
    (sendMessage failEnv ⟨true, true⟩ "chat-1" readyState).1.messages =
      readyState.messages ++
        [{ id := "msg-" ++ toString failEnv.now
           content := strTrim readyState.message
           sender := .user
           timestamp := failEnv.nowISO
           type := .text
           metadata := none },
         { id := "msg-" ++ toString (failEnv.now + 1)
           content := fallbackExplanation ++ getFallbackSuggestion (strTrim readyState.message)
           sender := .ai
           timestamp := failEnv.nowISO
           type := .text
           metadata := some { confidence := some (0.1 : ℚ)
                              needsPermission := none
                              actionItems := none
                              disclaimer := some fallbackDisclaimer } }] ∧
    fallbackDisclaimer ≠ "" :=
  sendMessage_genFail_fallback failEnv ⟨true, true⟩ "chat-1" readyState "network error"
    (by decide) rfl rfl rfl (fun _ => rfl) rfl

/-- Claim C5: when the generation call succeeds, the send appends exactly
one AI message after the echoed user message: it has sender ai, type
text, the fixed AI-generated-content disclaimer, and its confidence is
the mood signal's confidence — the consent-gated mood analysis result,
which is 0 whenever `moodDetection` consent is false (assuming the store
accepts both appends). -/
theorem sendMessage_genOk_aiMessage (env : SendEnv) (uc : Consents)
    (cid : String) (st : ChatState) (txt : String)
    (hne : (strTrim st.message).isEmpty = false)
    (hns : st.isSending = false)
    (happ : env.appendUserOk = true)
    (hinit : env.initOk = true)
    (hgen : ∀ c, env.generateResponse (strTrim st.message) c = Except.ok txt)
    (hai : env.appendAiOk = true) :
    (sendMessage env uc cid st).1.messages =
      st.messages ++
        [{ id := "msg-" ++ toString env.now
           content := strTrim st.message
           sender := .user
           timestamp := env.nowISO
           type := .text
           metadata := none },
         { id := "msg-" ++ toString (env.now + 1)
           content := txt
           sender := .ai
           timestamp := env.nowISO
           type := .text
           metadata := some {
             confidence := some (if uc.moodDetection then
               (env.detectMood (strTrim st.message)).confidence else 0)
             needsPermission := none
             actionItems := none
             disclaimer := some aiDisclaimer } }] ∧
    (uc.moodDetection = false →
      (if uc.moodDetection then
        (env.detectMood (strTrim st.message)).confidence else 0) = 0) := by
  constructor
  · unfold sendMessage sendResolve
    simp [hne, hns, happ, hinit, hgen, hai, apply_ite MoodAnalysis.confidence]
  · intro h
    simp [h]

/-- Witness for C5 with mood-detection consent off: the appended AI
message carries confidence 0. -/
theorem sendMessage_genOk_aiMessage_witness :
    (sendMessage demoEnv ⟨false, true⟩ "chat-1" readyState).1.messages =
      readyState.messages ++
        [{ id := "msg-" ++ toString demoEnv.now
           content := strTrim readyState.message
           sender := .user
           timestamp := demoEnv.nowISO
           type := .text
           metadata := none },
         { id := "msg-" ++ toString (demoEnv.now + 1)
           content := "Here is my reply."
           sender := .ai
           timestamp := demoEnv.nowISO
           type := .text
           metadata := some {
             confidence := some (if (Consents.mk false true).moodDetection then
               (demoEnv.detectMood (strTrim readyState.message)).confidence else 0)
             needsPermission := none
             actionItems := none
             disclaimer := some aiDisclaimer } }] ∧
    ((Consents.mk false true).moodDetection = false →
      (if (Consents.mk false true).moodDetection then
        (demoEnv.detectMood (strTrim readyState.message)).confidence else 0) = 0) :=
  sendMessage_genOk_aiMessage demoEnv ⟨false, true⟩ "chat-1" readyState "Here is my reply."
    (by decide) rfl rfl rfl (fun _ => rfl) rfl

/-- Claim C6: during a send that reaches the enrichment step, the mood
collaborator is called iff `moodDetection` consent is true and the
hyperlocal-context collaborator is called iff `locationServices` consent
is true; moreover, when a consent flag is false the whole invocation —
including the generation request — is unchanged under any replacement of
that collaborator, so it is independent of the collaborator's output. -/
theorem sendMessage_consent_gating (env : SendEnv) (uc : Consents)
    (cid : String) (st : ChatState)
    (f : String → MoodAnalysis) (g : String → String → LocationContext)
    (hne : (strTrim st.message).isEmpty = false)
    (hns : st.isSending = false)
    (happ : env.appendUserOk = true)
    (hinit : env.initOk = true) :
    (Event.moodCall (strTrim st.message) ∈ (sendMessage env uc cid st).2 ↔
      uc.moodDetection = true) ∧
    (Event.localityCall "Bangalore" (strTrim st.message) ∈ (sendMessage env uc cid st).2 ↔
      uc.locationServices = true) ∧
    (uc.moodDetection = false →
      sendMessage { env with detectMood := f } uc cid st = sendMessage env uc cid st) ∧
    (uc.locationServices = false →
      sendMessage { env with getHyperlocalContext := g } uc cid st = sendMessage env uc cid st) := by
  refine ⟨?_, ?_, ?_, ?_⟩
  · unfold sendMessage sendResolve sendFallback
    rcases hm : uc.moodDetection <;> rcases hl : uc.locationServices <;>
      simp [hne, hns, happ, hinit, hm, hl] <;>
      rcases env.generateResponse (strTrim st.message) _ with r | r <;>
      simp <;> split <;> simp
  · unfold sendMessage sendResolve sendFallback
    rcases hm : uc.moodDetection <;> rcases hl : uc.locationServices <;>
      simp [hne, hns, happ, hinit, hm, hl] <;>
      rcases env.generateResponse (strTrim st.message) _ with r | r <;>
      simp <;> split <;> simp
  · intro hm
    unfold sendMessage sendResolve sendFallback
    simp [hne, hns, happ, hinit, hm]
  · intro hl
    unfold sendMessage sendResolve sendFallback
    simp [hne, hns, happ, hinit, hl]

/-- Alternative mood collaborator used to witness noninterference. -/
def altMood : String → MoodAnalysis :=
  fun _ => { mood := "angry", confidence := 0.2, suggestions := ["calm down"] }

/-- Alternative hyperlocal-context collaborator used to witness
noninterference. -/
def altLocality : String → String → LocationContext :=
  fun _ _ => { area := "Elsewhere", suggestions := ["other tip"] }

/-- Witness for C6 with both consents off: neither collaborator is
called, and replacing either collaborator leaves the invocation's result
unchanged. -/
theorem sendMessage_consent_gating_witness :
    (Event.moodCall (strTrim readyState.message) ∈
        (sendMessage demoEnv ⟨false, false⟩ "chat-1" readyState).2 ↔
      (Consents.mk false false).moodDetection = true) ∧
    (Event.localityCall "Bangalore" (strTrim readyState.message) ∈
        (sendMessage demoEnv ⟨false, false⟩ "chat-1" readyState).2 ↔
      (Consents.mk false false).locationServices = true) ∧
    ((Consents.mk false false).moodDetection = false →
      sendMessage { demoEnv with detectMood := altMood } ⟨false, false⟩ "chat-1" readyState =
        sendMessage demoEnv ⟨false, false⟩ "chat-1" readyState) ∧
    ((Consents.mk false false).locationServices = false →
      sendMessage { demoEnv with getHyperlocalContext := altLocality } ⟨false, false⟩ "chat-1" readyState =
        sendMessage demoEnv ⟨false, false⟩ "chat-1" readyState) :=
  sendMessage_consent_gating demoEnv ⟨false, false⟩ "chat-1" readyState
    altMood altLocality (by decide) rfl rfl rfl

/-- The store adapter's append as performed by every `setMessages` call
in the source: a pure transformation of the previous sequence that puts
the new message at the end (`prev => [...prev, msg]`). -/
def appendMessage (prev : List Message) (m : Message) : List Message :=
  prev ++ [m]

/-- Appending a whole sequence of messages through the store adapter,
in order. -/
def runAppends (init : List Message) (ms : List Message) : List Message :=
  ms.foldl appendMessage init

/-- Helper for C7: appending a sequence through the adapter concatenates
it, in order, after the existing log. -/
theorem runAppends_eq_append (init ms : List Message) :
    runAppends init ms = init ++ ms := by
  induction ms generalizing init with
  | nil => simp [runAppends]
  | cons a as ih =>
    simp only [runAppends, List.foldl_cons] at *
    rw [show appendMessage init a = init ++ [a] from rfl, ih]
    simp

/-- Helper for C7: the fallback path only ever extends the message list. -/
theorem messages_prefix_sendFallback (env : SendEnv) (st : ChatState)
    (cm : String) (pre : List Event) :
    st.messages <+: (sendFallback env st cm pre).1.messages := by
  unfold sendFallback
  split <;> simp [List.prefix_append]

/-- Helper for C7: the resolution step only ever extends the message list. -/
theorem messages_prefix_sendResolve (env : SendEnv) (cid : String)
    (st : ChatState) (cm : String) (conf : ℚ) (pre : List Event)
    (r : Except String String) :
    st.messages <+: (sendResolve env cid st cm conf pre r).1.messages := by
  rcases r with r | r
  · exact messages_prefix_sendFallback env st cm pre
  · simp only [sendResolve]
    split <;> simp [List.prefix_append]

/-- Helper for C7: the image-upload error path only ever extends the
message list. -/
theorem messages_prefix_imageUploadError (env : ImgEnv) (st : ChatState)
    (em : String) (pre : List Event) :
    st.messages <+: (imageUploadError env st em pre).1.messages := by
  unfold imageUploadError
  split <;> simp [List.prefix_append]

/-- Claim C7: appending N messages to an empty chat and reading it back
returns exactly those N messages, in insertion order, fields intact; and
every pipeline invocation only ever extends the stored list — the prior
message list is left as an untouched prefix (no reordering,
deduplication, mutation or deletion). -/
theorem store_roundtrip_append_only :
    (∀ ms : List Message, runAppends [] ms = ms) ∧
    (∀ init ms : List Message, runAppends init ms = init ++ ms) ∧
    (∀ (env : SendEnv) (uc : Consents) (cid : String) (st : ChatState),
      st.messages <+: (sendMessage env uc cid st).1.messages) ∧
    (∀ (env : ImgEnv) (st : ChatState) (file : FileInfo),
      st.messages <+: (processImageUpload env st file).1.messages) := by
  refine ⟨?_, runAppends_eq_append, ?_, ?_⟩
  · intro ms
    simp [runAppends_eq_append]
  · intro env uc cid st
    unfold sendMessage
    repeat' split
    all_goals dsimp only
    all_goals first
      | exact List.prefix_refl _
      | (refine List.IsPrefix.trans ?_ (messages_prefix_sendFallback _ _ _ _)
         exact List.prefix_append _ _)
      | (refine List.IsPrefix.trans ?_ (messages_prefix_sendResolve _ _ _ _ _ _ _)
         exact List.prefix_append _ _)
  · intro env st file
    unfold processImageUpload
    repeat' split
    all_goals dsimp only
    all_goals first
      | exact List.prefix_refl _
      | (refine List.IsPrefix.trans ?_ (messages_prefix_imageUploadError _ _ _ _)
         exact List.prefix_append _ _)
      | simp [List.prefix_append, List.append_assoc]

/-- Claim C8: for an image file over 10 MiB, after the user image message
is appended the upload takes the validation-error path: exactly one AI
error message with confidence 0 describing the size failure is appended
after the image message, and no bill-recognition message is ever
appended for that upload — neither in the resulting message list nor as
a store append in the event trace (assuming the store accepts both
appends). -/
theorem processImageUpload_oversize_rejected (env : ImgEnv) (st : ChatState)
    (file : FileInfo)
    (himg : env.appendImageOk = true)
    (herr : env.appendErrorOk = true)
    (hsize : file.size > 10 * 1024 * 1024) :
    (processImageUpload env st file).1.messages =
      st.messages ++
        [{ id := "msg-" ++ toString env.now
           content := "📷 Image uploaded: " ++ file.name
           sender := .user
           timestamp := env.nowISO
           type := .image
           metadata := none },
         { id := "msg-" ++ toString (env.now + 1)
           content := "❌ Error processing image: File size too large. Please select an image under 10MB."
           sender := .ai
           timestamp := env.nowISO
           type := .text
           metadata := some { confidence := some (0 : ℚ)
                              needsPermission := none
                              actionItems := none
                              disclaimer := some "Error occurred during file processing." } }] ∧
    Event.storeAppend (billResponse env) ∉ (processImageUpload env st file).2 ∧
    billResponse env ∉
      ((processImageUpload env st file).1.messages.drop st.messages.length) := by
  have hmain : processImageUpload env st file =
      ({ st with
          isTyping := false
          messages := st.messages ++
            [{ id := "msg-" ++ toString env.now
               content := "📷 Image uploaded: " ++ file.name
               sender := .user
               timestamp := env.nowISO
               type := .image
               metadata := none },
             { id := "msg-" ++ toString (env.now + 1)
               content := "❌ Error processing image: File size too large. Please select an image under 10MB."
               sender := .ai
               timestamp := env.nowISO
               type := .text
               metadata := some { confidence := some (0 : ℚ)
                                  needsPermission := none
                                  actionItems := none
                                  disclaimer := some "Error occurred during file processing." } }] },
       [Event.storeAppend
          { id := "msg-" ++ toString env.now
            content := "📷 Image uploaded: " ++ file.name
            sender := .user
            timestamp := env.nowISO
            type := .image
            metadata := none },
        Event.toastError "File size too large. Please select an image under 10MB.",
        Event.storeAppend
          { id := "msg-" ++ toString (env.now + 1)
            content := "❌ Error processing image: File size too large. Please select an image under 10MB."
            sender := .ai
            timestamp := env.nowISO
            type := .text
            metadata := some { confidence := some (0 : ℚ)
                               needsPermission := none
                               actionItems := none
                               disclaimer := some "Error occurred during file processing." } }]) := by
    unfold processImageUpload imageUploadError
    simp [himg, herr, hsize]
  refine ⟨by rw [hmain], ?_, ?_⟩
  · rw [hmain]
    simp [billResponse, billResponseContent]
  · rw [hmain]
    simp only [List.drop_left]
    simp [billResponse, billResponseContent]

/-- Demonstration environment for the image-upload pipeline. -/
def demoImgEnv : ImgEnv := {
  now := 200
  nowISO := "2024-09-01T11:00:00.000Z"
  appendImageOk := true
  appendBillOk := true
  appendErrorOk := true
  kvErrorMessage := fun op => "Storage error while trying to " ++ op }

/-- Demonstration chat state with an empty log and no pending input. -/
def emptyChat : ChatState :=
  { message := "", isSending := false, isTyping := false, messages := [] }

/-- A concrete 11 MiB image file. -/
def bigFile : FileInfo :=
  { name := "bill.jpg", size := 11 * 1024 * 1024, type := "image/jpeg" }

/-- Witness for C8: a concrete 11 MiB image upload. -/
theorem processImageUpload_oversize_rejected_witness :
    (processImageUpload demoImgEnv emptyChat bigFile).1.messages =
      emptyChat.messages ++
        [{ id := "msg-" ++ toString demoImgEnv.now
           content := "📷 Image uploaded: " ++ bigFile.name
           sender := .user
           timestamp := demoImgEnv.nowISO
           type := .image
           metadata := none },
         { id := "msg-" ++ toString (demoImgEnv.now + 1)
           content := "❌ Error processing image: File size too large. Please select an image under 10MB."
           sender := .ai
           timestamp := demoImgEnv.nowISO
           type := .text
           metadata := some { confidence := some (0 : ℚ)
                              needsPermission := none
                              actionItems := none
                              disclaimer := some "Error occurred during file processing." } }] ∧
    Event.storeAppend (billResponse demoImgEnv) ∉ (processImageUpload demoImgEnv emptyChat bigFile).2 ∧
    billResponse demoImgEnv ∉
      ((processImageUpload demoImgEnv emptyChat bigFile).1.messages.drop emptyChat.messages.length) :=
  processImageUpload_oversize_rejected demoImgEnv emptyChat bigFile rfl rfl (by decide)

/-- Environment whose generation call throws and whose fallback-message
append also fails. -/
def failFbEnv : SendEnv :=
  { demoEnv with
      generateResponse := fun _ _ => .error "network error"
      appendFallbackOk := false }

/-- Counterexample to C9 as stated: in the text-send pipeline, when the
append of the already-synthesized fallback message fails, the source
(ChatInterface.tsx lines 216-219) surfaces that secondary failure to the
user with `toast.error`, and does not merely log it — the trace contains
the storage-error toast and no console log of it. -/
theorem fallbackAppendFail_is_toasted_counterexample :
    Event.toastError (failFbEnv.kvErrorMessage "add fallback message") ∈
      (sendMessage failFbEnv ⟨false, false⟩ "chat-1" readyState).2 ∧
    Event.consoleError (failFbEnv.kvErrorMessage "add fallback message") ∉
      (sendMessage failFbEnv ⟨false, false⟩ "chat-1" readyState).2 := by
  decide

/-- Claim C9 (amended): a failed append of the already-synthesized error
message in the image-upload path is only logged to the console and not
surfaced; but in the text-send path a failed append of the synthesized
fallback message IS surfaced to the user as a storage-error toast
(followed by the generic failure notice), not merely logged; and no
error on any other path is silently discarded — a failed user-message
append, a failed AI-message append, a generation failure, a failed
image-message append, a validation failure, a failed bill-response
append, and the variant's generation failure each put a user-facing
toast in the trace. -/
theorem secondary_append_failure_paths (envI : ImgEnv) (stI : ChatState)
    (file : FileInfo) (env : SendEnv) (uc : Consents) (cid : String)
    (st : ChatState) (e : String)
    (envU : SendEnv) (ucU : Consents) (cidU : String) (stU : ChatState)
    (envA : SendEnv) (ucA : Consents) (cidA : String) (stA : ChatState) (txtA : String)
    (envG : SendEnv) (ucG : Consents) (cidG : String) (stG : ChatState) (eG : String)
    (envJ : ImgEnv) (stJ : ChatState) (fileJ : FileInfo)
    (envK : ImgEnv) (stK : ChatState) (fileK : FileInfo)
    (envL : ImgEnv) (stL : ChatState) (fileL : FileInfo)
    (envV : AppEnv) (settingsV : AppSettings) (stV : AppState) (cidV : String) (eV : String)
    (himg : envI.appendImageOk = true)
    (herrF : envI.appendErrorOk = false)
    (hsize : file.size > 10 * 1024 * 1024)
    (hne : (strTrim st.message).isEmpty = false)
    (hns : st.isSending = false)
    (happ : env.appendUserOk = true)
    (hinit : env.initOk = true)
    (hm : uc.moodDetection = false)
    (hl : uc.locationServices = false)
    (hgen : ∀ c, env.generateResponse (strTrim st.message) c = Except.error e)
    (hfb : env.appendFallbackOk = false)
    (hneU : (strTrim stU.message).isEmpty = false)
    (hnsU : stU.isSending = false)
    (hfailU : envU.appendUserOk = false)
    (hneA : (strTrim stA.message).isEmpty = false)
    (hnsA : stA.isSending = false)
    (happA : envA.appendUserOk = true)
    (hinitA : envA.initOk = true)
    (hgenA : ∀ c, envA.generateResponse (strTrim stA.message) c = Except.ok txtA)
    (haiA : envA.appendAiOk = false)
    (hneG : (strTrim stG.message).isEmpty = false)
    (hnsG : stG.isSending = false)
    (happG : envG.appendUserOk = true)
    (hinitG : envG.initOk = true)
    (hgenG : ∀ c, envG.generateResponse (strTrim stG.message) c = Except.error eG)
    (hfbG : envG.appendFallbackOk = true)
    (hfailJ : envJ.appendImageOk = false)
    (himgK : envK.appendImageOk = true)
    (herrK : envK.appendErrorOk = true)
    (hsizeK : fileK.size > 10 * 1024 * 1024)
    (himgL : envL.appendImageOk = true)
    (hszL : fileL.size ≤ 10 * 1024 * 1024)
    (htyL : strStartsWith fileL.type "image/" = true)
    (hbillL : envL.appendBillOk = false)
    (hneV : (strTrim stV.messageInput).isEmpty = false)
    (hcidV : stV.currentChatId = some cidV)
    (honV : settingsV.aiConfig.enabled = true)
    (hkeyV : truthyKey settingsV.aiConfig.apiKey = true)
    (hgenV : ∀ h o, envV.generateResponse (strTrim stV.messageInput) h o = Except.error eV) :
    (processImageUpload envI stI file).2 =
      [Event.storeAppend
         { id := "msg-" ++ toString envI.now
           content := "📷 Image uploaded: " ++ file.name
           sender := .user
           timestamp := envI.nowISO
           type := .image
           metadata := none },
       Event.toastError "File size too large. Please select an image under 10MB.",
       Event.consoleError (envI.kvErrorMessage "add error message")] ∧
    (sendMessage env uc cid st).2 =
      [Event.storeAppend
         { id := "msg-" ++ toString env.now
           content := strTrim st.message
           sender := .user
           timestamp := env.nowISO
           type := .text
           metadata := none },
       Event.genCall (strTrim st.message)
         { mood := { mood := "neutral", confidence := 0, suggestions := [] }
           location := { area := "", suggestions := [] }
           messageHistory := st.messages
           isGroupMention := strContains (strLower (strTrim st.message)) "@sahaay"
           specificRequest := strTrim st.message },
       Event.toastError (env.kvErrorMessage "add fallback message"),
       Event.toastError "Failed to get AI response. Using fallback response."] ∧
    Event.toastError (envU.kvErrorMessage "add user message") ∈
      (sendMessage envU ucU cidU stU).2 ∧
    Event.toastError (envA.kvErrorMessage "add AI message") ∈
      (sendMessage envA ucA cidA stA).2 ∧
    Event.toastError "Failed to get AI response. Using fallback response." ∈
      (sendMessage envG ucG cidG stG).2 ∧
    (processImageUpload envJ stJ fileJ).2 =
      [Event.toastError (envJ.kvErrorMessage "add image message")] ∧
    Event.toastError "File size too large. Please select an image under 10MB." ∈
      (processImageUpload envK stK fileK).2 ∧
    Event.toastError (envL.kvErrorMessage "add bill response") ∈
      (processImageUpload envL stL fileL).2 ∧
    AEvent.toastError "Failed to generate AI response" ∈
      (handleSendMessage envV settingsV stV).2 := by
  refine ⟨?_, ?_, ?_, ?_, ?_, ?_, ?_, ?_, ?_⟩
  · unfold processImageUpload imageUploadError
    simp [himg, herrF, hsize]
  · unfold sendMessage sendResolve sendFallback
    simp [hne, hns, happ, hinit, hm, hl, hgen, hfb]
  · unfold sendMessage
    simp [hneU, hnsU, hfailU]
  · unfold sendMessage sendResolve
    simp [hneA, hnsA, happA, hinitA, hgenA, haiA]
  · unfold sendMessage sendResolve sendFallback
    simp [hneG, hnsG, happG, hinitG, hgenG, hfbG]
  · unfold processImageUpload
    simp [hfailJ]
  · unfold processImageUpload imageUploadError
    simp [himgK, herrK, hsizeK]
  · unfold processImageUpload
    simp [himgL, htyL, hbillL, Nat.not_lt.mpr hszL]
  · unfold handleSendMessage
    simp [hneV, hcidV, honV, hkeyV, hgenV]

/-- Demonstration state of the `MessagingApp` variant with a selected
chat and a pending input. -/
def appReadyState : AppState :=
  { messageInput := " hello there "
    currentChatId := some "chat-7"
    currentChatType := some "direct"
    currentMessages := [] }

/-- Image-upload environment whose error-message append fails. -/
def failErrImgEnv : ImgEnv := { demoImgEnv with appendErrorOk := false }

/-- Image-upload environment whose bill-response append fails. -/
def failBillImgEnv : ImgEnv := { demoImgEnv with appendBillOk := false }

/-- A small, valid image file. -/
def smallFile : FileInfo :=
  { name := "bill.png", size := 2048, type := "image/png" }

/-- Settings of the variant with AI enabled and an API key present. -/
def onSettings : AppSettings :=
  { aiConfig := { enabled := true, apiKey := some "key-1" }, moodDetection := false }

/-- Variant environment whose generation call always throws. -/
def appFailEnv : AppEnv :=
  { generateResponse := fun _ _ _ => .error "provider unreachable" }

/-- Witness for the amended C9 at concrete inputs for every error path. -/
theorem secondary_append_failure_paths_witness :
    (processImageUpload failErrImgEnv emptyChat bigFile).2 =
      [Event.storeAppend
         { id := "msg-" ++ toString failErrImgEnv.now
           content := "📷 Image uploaded: " ++ bigFile.name
           sender := .user
           timestamp := failErrImgEnv.nowISO
           type := .image
           metadata := none },
       Event.toastError "File size too large. Please select an image under 10MB.",
       Event.consoleError (failErrImgEnv.kvErrorMessage "add error message")] ∧
    (sendMessage failFbEnv ⟨false, false⟩ "chat-1" readyState).2 =
      [Event.storeAppend
         { id := "msg-" ++ toString failFbEnv.now
           content := strTrim readyState.message
           sender := .user
           timestamp := failFbEnv.nowISO
           type := .text
           metadata := none },
       Event.genCall (strTrim readyState.message)
         { mood := { mood := "neutral", confidence := 0, suggestions := [] }
           location := { area := "", suggestions := [] }
           messageHistory := readyState.messages
           isGroupMention := strContains (strLower (strTrim readyState.message)) "@sahaay"
           specificRequest := strTrim readyState.message },
       Event.toastError (failFbEnv.kvErrorMessage "add fallback message"),
       Event.toastError "Failed to get AI response. Using fallback response."] ∧
    Event.toastError ({ demoEnv with appendUserOk := false }.kvErrorMessage "add user message") ∈
      (sendMessage { demoEnv with appendUserOk := false } ⟨true, true⟩ "chat-1" readyState).2 ∧
    Event.toastError ({ demoEnv with appendAiOk := false }.kvErrorMessage "add AI message") ∈
      (sendMessage { demoEnv with appendAiOk := false } ⟨true, true⟩ "chat-1" readyState).2 ∧
    Event.toastError "Failed to get AI response. Using fallback response." ∈
      (sendMessage failEnv ⟨true, true⟩ "chat-1" readyState).2 ∧
    (processImageUpload { demoImgEnv with appendImageOk := false } emptyChat bigFile).2 =
      [Event.toastError ({ demoImgEnv with appendImageOk := false }.kvErrorMessage "add image message")] ∧
    Event.toastError "File size too large. Please select an image under 10MB." ∈
      (processImageUpload demoImgEnv emptyChat bigFile).2 ∧
    Event.toastError (failBillImgEnv.kvErrorMessage "add bill response") ∈
      (processImageUpload failBillImgEnv emptyChat smallFile).2 ∧
    AEvent.toastError "Failed to generate AI response" ∈
      (handleSendMessage appFailEnv onSettings appReadyState).2 := by
  exact secondary_append_failure_paths failErrImgEnv emptyChat bigFile failFbEnv
    ⟨false, false⟩ "chat-1" readyState "network error"
    { demoEnv with appendUserOk := false } ⟨true, true⟩ "chat-1" readyState
    { demoEnv with appendAiOk := false } ⟨true, true⟩ "chat-1" readyState "Here is my reply."
    failEnv ⟨true, true⟩ "chat-1" readyState "network error"
    { demoImgEnv with appendImageOk := false } emptyChat bigFile
    demoImgEnv emptyChat bigFile
    failBillImgEnv emptyChat smallFile
    appFailEnv onSettings appReadyState "chat-7" "provider unreachable"
    (by decide) (by decide) (by decide) (by decide) (by decide) (by decide)
    (by decide) (by decide) (by decide) (fun _ => rfl) (by decide)
    (by decide) (by decide) (by decide)
    (by decide) (by decide) (by decide) (by decide) (fun _ => rfl) (by decide)
    (by decide) (by decide) (by decide) (by decide) (fun _ => rfl) (by decide)
    (by decide)
    (by decide) (by decide) (by decide)
    (by decide) (by decide) (by decide) (by decide)
    (by decide) (by decide) (by decide) (by decide) (fun _ _ => rfl)

/-- Claim C10: in the `MessagingApp` variant, a send with non-empty
trimmed input and a current chat selected, issued while
`settings.aiConfig.enabled` is false or `settings.aiConfig.apiKey` is
absent (falsy), appends exactly one user message and never invokes the
AI generation function — the whole trace is that single append, so no AI
or fallback message is appended for that send. -/
theorem handleSendMessage_aiDisabled (env : AppEnv) (settings : AppSettings)
    (st : AppState) (cid : String)
    (hne : (strTrim st.messageInput).isEmpty = false)
    (hcid : st.currentChatId = some cid)
    (hoff : settings.aiConfig.enabled = false ∨
      truthyKey settings.aiConfig.apiKey = false) :
    handleSendMessage env settings st =
      ({ st with
          messageInput := ""
          currentMessages := st.currentMessages ++
            [{ content := strTrim st.messageInput
               sender := .user
               chatId := cid
               metadata := none }] },
       [AEvent.addMessage
         { content := strTrim st.messageInput
           sender := .user
           chatId := cid
           metadata := none }]) := by
  unfold handleSendMessage
  rcases hoff with h | h <;> simp [hne, hcid, h]

/-- Settings with AI disabled and no API key. -/
def offSettings : AppSettings :=
  { aiConfig := { enabled := false, apiKey := none }, moodDetection := true }

/-- Environment for the variant whose generation call would succeed —
irrelevant when the AI config is disabled. -/
def appDemoEnv : AppEnv :=
  { generateResponse := fun _ _ _ => .ok ("A reply.", none) }

/-- Witness for C10 at concrete inputs with AI disabled. -/
theorem handleSendMessage_aiDisabled_witness :
    handleSendMessage appDemoEnv offSettings appReadyState =
      ({ appReadyState with
          messageInput := ""
          currentMessages := appReadyState.currentMessages ++
            [{ content := strTrim appReadyState.messageInput
               sender := .user
               chatId := "chat-7"
               metadata := none }] },
       [AEvent.addMessage
         { content := strTrim appReadyState.messageInput
           sender := .user
           chatId := "chat-7"
           metadata := none }]) :=
  handleSendMessage_aiDisabled appDemoEnv offSettings appReadyState "chat-7"
    (by decide) rfl (Or.inl rfl)
